import Mathlib

set_option maxRecDepth 1000000

/-!
Verification of the describo-backend authentication core: a shallow embedding of
the key-set cache (`app/core/security.py:get_jwks`), the JWT verification paths
(`app/core/security.py:verify_token` and `app/api/deps.py:get_current_user`),
and the Stripe webhook endpoint (`app/api/endpoints/webnooks.py:stripe_webhook`),
together with theorems about cache freshness, token rejection and webhook
signature verification.
-/

namespace Describo

/-! ## Python value semantics helpers -/

/-- Python truthiness of a string: empty strings are falsy. -/
def pyTruthyStr (s : String) : Bool := !(s == "")

/-- Python truthiness of an optional string: None and the empty string are falsy. -/
def pyTruthyOptStr : Option String → Bool
  | none => false
  | some s => pyTruthyStr s

/-- Python truthiness of an optional integer: None and 0 are falsy. -/
def pyTruthyOptInt : Option Int → Bool
  | none => false
  | some n => !(n == 0)

/-- Digits of a decimal literal to a natural number; none when empty or non-digit. -/
def digitsToNat? (cs : List Char) : Option Nat :=
  if cs.isEmpty then none
  else cs.foldl (fun acc c =>
    match acc with
    | none => none
    | some n => if c.isDigit then some (n * 10 + (c.toNat - 48)) else none) (some 0)

/-- Model of the Python built-in int() on a string: an optional sign followed by
decimal digits. Surrounding whitespace and underscore digit grouping, which
Python also tolerates, are not modelled; the inputs of interest are plain
decimal timestamps. Returns none where int() raises ValueError. -/
def pyInt? (s : String) : Option Int :=
  match s.data with
  | '-' :: rest => (digitsToNat? rest).map (fun n => -(n : Int))
  | '+' :: rest => (digitsToNat? rest).map (fun n => (n : Int))
  | cs => (digitsToNat? cs).map (fun n => (n : Int))

/-- A Python runtime value, as far as the OPTIONS guard in deps.py needs:
either the starlette property descriptor object obtained by evaluating
Request.method on the class itself, or a string. -/
inductive PyVal where
  | propertyDescriptor
  | str (s : String)
deriving DecidableEq

/-- Python equality between such values: a property descriptor object defines no
custom equality, so comparing it with any string falls back to identity and is
False; two strings compare by content. -/
def pyValEq : PyVal → PyVal → Bool
  | .str a, .str b => a == b
  | .propertyDescriptor, .propertyDescriptor => true
  | _, _ => false

/-- Evaluating Request.method on the starlette Request class (not an instance),
as line 25 of app/api/deps.py does, yields the property descriptor itself. -/
def requestClassMethod : PyVal := .propertyDescriptor

instance {α β : Type} [DecidableEq α] [DecidableEq β] : DecidableEq (Except α β) := fun x y =>
  match x, y with
  | .error a, .error b =>
    if h : a = b then isTrue (h ▸ rfl) else isFalse (fun hc => h (by injection hc))
  | .error _, .ok _ => isFalse (fun hc => Except.noConfusion hc)
  | .ok _, .error _ => isFalse (fun hc => Except.noConfusion hc)
  | .ok a, .ok b =>
    if h : a = b then isTrue (h ▸ rfl) else isFalse (fun hc => h (by injection hc))

/-! ## SHA-256 and HMAC-SHA256

Model of the hashlib.sha256 / hmac library calls made by the webhook code
(FIPS 180-4 and RFC 2104), over byte lists represented as naturals. -/

def w32 (n : Nat) : Nat := n % 4294967296

def rotr32 (r x : Nat) : Nat := w32 ((x >>> r) ||| (x <<< (32 - r)))

def bigSigma0 (x : Nat) : Nat := (rotr32 2 x) ^^^ (rotr32 13 x) ^^^ (rotr32 22 x)

def bigSigma1 (x : Nat) : Nat := (rotr32 6 x) ^^^ (rotr32 11 x) ^^^ (rotr32 25 x)

def smallSigma0 (x : Nat) : Nat := (rotr32 7 x) ^^^ (rotr32 18 x) ^^^ (x >>> 3)

def smallSigma1 (x : Nat) : Nat := (rotr32 17 x) ^^^ (rotr32 19 x) ^^^ (x >>> 10)

/-- Round constants of FIPS 180-4 for SHA-256, in decimal. -/
def shaK : Array Nat := #[
  1116352408, 1899447441, 3049323471, 3921009573, 961987163, 1508970993,
  2453635748, 2870763221, 3624381080, 310598401, 607225278, 1426881987,
  1925078388, 2162078206, 2614888103, 3248222580, 3835390401, 4022224774,
  264347078, 604807628, 770255983, 1249150122, 1555081692, 1996064986,
  2554220882, 2821834349, 2952996808, 3210313671, 3336571891, 3584528711,
  113926993, 338241895, 666307205, 773529912, 1294757372, 1396182291,
  1695183700, 1986661051, 2177026350, 2456956037, 2730485921, 2820302411,
  3259730800, 3345764771, 3516065817, 3600352804, 4094571909, 275423344,
  430227734, 506948616, 659060556, 883997877, 958139571, 1322822218,
  1537002063, 1747873779, 1955562222, 2024104815, 2227730452, 2361852424,
  2428436474, 2756734187, 3204031479, 3329325298]

/-- Initial hash state of FIPS 180-4 for SHA-256, in decimal. -/
def shaH0 : Array Nat := #[
  1779033703, 3144134277, 1013904242, 2773480762,
  1359893119, 2600822924, 528734635, 1541459225]

/-- Pad a byte message per SHA-256: append 0x80, zeros, then the 64-bit big-endian bit length. -/
def shaPad (msg : List Nat) : List Nat :=
  let l := msg.length
  let zeros := (55 + 64 - (l % 64)) % 64
  let bitLen := l * 8
  msg ++ [0x80] ++ List.replicate zeros 0 ++
    (List.range 8).map (fun i => (bitLen >>> (8 * (7 - i))) % 256)

/-- Split a padded message into 64-byte chunks. -/
def chunks64 (l : List Nat) : List (List Nat) :=
  (List.range (l.length / 64)).map (fun i => ((l.drop (64 * i)).take 64))

/-- The 16 initial 32-bit big-endian words of a 64-byte chunk. -/
def chunkWords (c : List Nat) : Array Nat :=
  Array.ofFn (n := 16) (fun i =>
    (c.getD (4 * i.val) 0) <<< 24 ||| (c.getD (4 * i.val + 1) 0) <<< 16 |||
    (c.getD (4 * i.val + 2) 0) <<< 8 ||| (c.getD (4 * i.val + 3) 0))

/-- Extend the 16 chunk words to the 64-word message schedule. -/
def schedule (ws : Array Nat) : Array Nat :=
  (List.range 48).foldl (fun a i =>
    a.push (w32 (smallSigma1 (a.getD (i + 14) 0) + a.getD (i + 9) 0 +
                 smallSigma0 (a.getD (i + 1) 0) + a.getD i 0))) ws

structure ShaState where
  a : Nat
  b : Nat
  c : Nat
  d : Nat
  e : Nat
  f : Nat
  g : Nat
  h : Nat

def shaRound (w k : Nat) (s : ShaState) : ShaState :=
  let t1 := w32 (s.h + bigSigma1 s.e + ((s.e &&& s.f) ^^^ (((2 ^ 32 - 1) - s.e) &&& s.g)) + k + w)
  let t2 := w32 (bigSigma0 s.a + ((s.a &&& s.b) ^^^ (s.a &&& s.c) ^^^ (s.b &&& s.c)))
  ⟨w32 (t1 + t2), s.a, s.b, s.c, w32 (s.d + t1), s.e, s.f, s.g⟩

def compress (h : Array Nat) (chunk : List Nat) : Array Nat :=
  let ws := schedule (chunkWords chunk)
  let s0 : ShaState := ⟨h.getD 0 0, h.getD 1 0, h.getD 2 0, h.getD 3 0,
                        h.getD 4 0, h.getD 5 0, h.getD 6 0, h.getD 7 0⟩
  let s := (List.range 64).foldl (fun st i => shaRound (ws.getD i 0) (shaK.getD i 0) st) s0
  #[w32 (h.getD 0 0 + s.a), w32 (h.getD 1 0 + s.b), w32 (h.getD 2 0 + s.c), w32 (h.getD 3 0 + s.d),
    w32 (h.getD 4 0 + s.e), w32 (h.getD 5 0 + s.f), w32 (h.getD 6 0 + s.g), w32 (h.getD 7 0 + s.h)]

/-- Big-endian bytes of one 32-bit word. -/
def wordBytes (word : Nat) : List Nat :=
  [(word >>> 24) % 256, (word >>> 16) % 256, (word >>> 8) % 256, word % 256]

/-- SHA-256 digest of a byte list, as 32 bytes. -/
def sha256 (msg : List Nat) : List Nat :=
  let final := (chunks64 (shaPad msg)).foldl compress shaH0
  (final.toList.map wordBytes).flatten

/-- Lowercase hexadecimal digit for a nibble. -/
def hexDigit (n : Nat) : Char :=
  if n < 10 then Char.ofNat (48 + n) else Char.ofNat (87 + n)

/-- Lowercase hexadecimal characters of a byte list, two digits per byte. -/
def bytesToHexChars : List Nat → List Char
  | [] => []
  | b :: bs => hexDigit (b / 16 % 16) :: hexDigit (b % 16) :: bytesToHexChars bs

/-- Lowercase hexadecimal rendering of a byte list, as hexdigest() produces. -/
def bytesToHex (bs : List Nat) : String := String.mk (bytesToHexChars bs)

/-- HMAC-SHA256 (RFC 2104) over byte lists, block size 64. -/
def hmacSha256 (key msg : List Nat) : List Nat :=
  let k0 := if key.length > 64 then sha256 key else key
  let kPad := k0 ++ List.replicate (64 - k0.length) 0
  let ipad := kPad.map (fun b => b ^^^ 0x36)
  let opad := kPad.map (fun b => b ^^^ 0x5c)
  sha256 (opad ++ sha256 (ipad ++ msg))

/-- UTF-8 encoding of one character. -/
def utf8EncodeChar (c : Char) : List Nat :=
  let n := c.toNat
  if n < 0x80 then [n]
  else if n < 0x800 then [0xC0 ||| (n >>> 6), 0x80 ||| (n &&& 0x3F)]
  else if n < 0x10000 then
    [0xE0 ||| (n >>> 12), 0x80 ||| ((n >>> 6) &&& 0x3F), 0x80 ||| (n &&& 0x3F)]
  else
    [0xF0 ||| (n >>> 18), 0x80 ||| ((n >>> 12) &&& 0x3F),
     0x80 ||| ((n >>> 6) &&& 0x3F), 0x80 ||| (n &&& 0x3F)]

/-- UTF-8 encoding of a string, the model of str.encode in the webhook code. -/
def utf8Encode (s : String) : List Nat := (s.data.map utf8EncodeChar).flatten

/-- Model of hmac.new(key.encode(), msg.encode(), hashlib.sha256).hexdigest(). -/
def hmacSha256HexS (key msg : String) : String :=
  bytesToHex (hmacSha256 (utf8Encode key) (utf8Encode msg))

/-- Character is a lowercase hexadecimal digit. -/
def isLowerHexChar (c : Char) : Bool :=
  (48 ≤ c.toNat && c.toNat ≤ 57) || (97 ≤ c.toNat && c.toNat ≤ 102)

/-- String consists only of lowercase hexadecimal digits. -/
def isLowerHexString (s : String) : Bool := s.data.all isLowerHexChar

/-! ## Key-set cache: get_jwks (app/core/security.py lines 13-36)

The module-level cache jwks_cache is passed and returned explicitly; the
requests.get call and its possible failures are an explicit fetch outcome.
time.time() is the explicit current_time argument, in whole seconds. -/

structure JWK where
  kid : String
deriving DecidableEq

structure JwksCache where
  keys : List JWK
  last_fetched : Int
deriving DecidableEq

def CACHE_LIFETIME_SECONDS : Int := 3600

/-- Outcome of the requests.get of the JWKS URL plus raise_for_status and
body decoding, as observed by get_jwks. reqException covers every
requests.exceptions.RequestException: connection errors, raise_for_status on a
non-success response, and an invalid JSON body (requests raises its
JSONDecodeError, a RequestException subclass, from response.json()).
jsonWithoutKeys is a well-formed JSON body with no keys field, for which the
subscript raises KeyError, which is not a RequestException. -/
inductive FetchOutcome where
  | reqException (msg : String)
  | jsonWithoutKeys
  | ok (keys : List JWK)
deriving DecidableEq

/-- How a get_jwks call terminates abnormally: an HTTPException with a status
code and detail, or a Python exception that no handler in the function catches
(the KeyError above), which would surface as a generic 500 further out. -/
inductive GetJwksErr where
  | http (statusCode : Nat) (detail : String)
  | pyKeyError
deriving DecidableEq

structure GetJwksResult where
  result : Except GetJwksErr (List JWK)
  cache : JwksCache
  fetchCount : Nat
deriving DecidableEq

/-- Model of get_jwks: refetch when the cached list is empty (Python falsiness
of the list) or the cache is older than CACHE_LIFETIME_SECONDS; otherwise serve
the cache. fetchCount is the number of remote fetches the call performs. -/
def get_jwks (cache : JwksCache) (current_time : Int) (fetch : FetchOutcome) : GetJwksResult :=
  if cache.keys.isEmpty || decide (current_time - cache.last_fetched > CACHE_LIFETIME_SECONDS) then
    match fetch with
    | .reqException msg => ⟨.error (.http 503 ("Could not fetch JWKS: " ++ msg)), cache, 1⟩
    | .jsonWithoutKeys => ⟨.error .pyKeyError, cache, 1⟩
    | .ok ks => ⟨.ok ks, ⟨ks, current_time⟩, 1⟩
  else ⟨.ok cache.keys, cache, 0⟩

/-- Truth value of: the result is an HTTPException with status 503. -/
def isHttp503 : Except GetJwksErr (List JWK) → Bool
  | .error (.http 503 _) => true
  | _ => false

/-! ## PyJWT decode model

jwt.decode as called in this code base: signature verification first, then
claim validation, with the expiration claim checked before the audience claim
as pyjwt does. Headers, structural parsing and the cryptographic signature
check itself are collapsed into the sigOk flag: the token either does or does
not carry a valid signature for the selected key and algorithm. -/

structure JwtPayload where
  sub : Option String
  email : Option String
  role : Option String
  aud : Option String
  exp : Option Int
deriving DecidableEq

inductive JwtError where
  | expiredSignature
  | badSignature
  | missingAudClaim
  | invalidAudience
  | missingKid
  | signingKeyNotFound
deriving DecidableEq

/-- Rendering of the exception messages flowing into the Invalid token detail
string of verify_token. -/
def jwtErrorMessage : JwtError → String
  | .expiredSignature => "Signature has expired"
  | .badSignature => "Signature verification failed"
  | .missingAudClaim => "Token is missing the aud claim"
  | .invalidAudience => "Audience does not match"
  | .missingKid => "Token header is missing kid"
  | .signingKeyNotFound => "Signing key not found in JWKS"

/-- The expiration test of pyjwt _validate_exp: only applied when an exp claim
is present; the token counts as expired when exp is at or before now minus
leeway. -/
def jwtExpired (payload : JwtPayload) (now leeway : Int) : Bool :=
  match payload.exp with
  | none => false
  | some exp => decide (exp ≤ now - leeway)

/-- Model of jwt.decode(token, key, algorithms, audience, leeway): fail on a bad
signature; fail with ExpiredSignatureError on an expired exp claim; require
the aud claim and match it against the expected audience. -/
def jwt_decode (sigOk : Bool) (payload : JwtPayload) (audience : String) (now leeway : Int) :
    Except JwtError JwtPayload :=
  if !sigOk then .error .badSignature
  else if jwtExpired payload now leeway then .error .expiredSignature
  else
    match payload.aud with
    | none => .error .missingAudClaim
    | some a => if a == audience then .ok payload else .error .invalidAudience

/-! ## get_current_user (app/api/deps.py lines 17-70)

The dependency used by every protected route. The decoded claims and the
validity of the HS256 signature under settings.supabase_secret_key are the
sigOk / payload arguments. The Python function can return the user-info dict,
return None (the OPTIONS branch), raise HTTPException, or raise
AuthenticationError (a DescriboException carrying status 401); the outer
try re-raises HTTPException unchanged and wraps any other exception in
AuthenticationError with an Authentication failed prefix. -/

structure UserInfo where
  user_id : Option String
  email : Option String
  role : String
deriving DecidableEq

inductive AuthFailure where
  | httpException (statusCode : Nat) (detail : String)
  | authenticationError (message : String)
deriving DecidableEq

/-- HTTP status a raised failure maps to: HTTPException carries its own code;
AuthenticationError is defined in app/core/exceptions.py with status 401. -/
def authFailureStatus : AuthFailure → Nat
  | .httpException s _ => s
  | .authenticationError _ => 401

/-- Model of get_current_user. The guard on line 25 compares Request.method,
evaluated on the class, against the string OPTIONS. jwt.decode is called with
audience authenticated and leeway 10. -/
def get_current_user (sigOk : Bool) (payload : JwtPayload) (now : Int) :
    Except AuthFailure (Option UserInfo) :=
  if pyValEq requestClassMethod (.str "OPTIONS") then .ok none
  else
    let inner : Except AuthFailure (Option UserInfo) :=
      match jwt_decode sigOk payload "authenticated" now 10 with
      | .error .expiredSignature => .error (.httpException 401 "Token has expired")
      | .error _ => .error (.httpException 401 "Invalid authentication token")
      | .ok p =>
        let user_info : UserInfo := ⟨p.sub, p.email, p.role.getD "authenticated"⟩
        if pyTruthyOptStr user_info.user_id then .ok (some user_info)
        else .error (.authenticationError "Invalid token: missing user ID")
    match inner with
    | .error (.authenticationError m) =>
      .error (.authenticationError ("Authentication failed: " ++ m))
    | r => r

/-- Truth value of: the call terminated in a raised failure carrying HTTP 401. -/
def failsWith401 : Except AuthFailure (Option UserInfo) → Bool
  | .error e => authFailureStatus e == 401
  | _ => false

/-! ## verify_token (app/core/security.py lines 40-88)

The JWKS-based verification path. A bearer token, when present, is modelled by
its unverified header kid, its claims, and whether its ES256 signature
verifies under the JWKS key selected by that kid. The get_jwks call is made
with an explicit cache, time and fetch outcome, exactly as above; the
HTTPException it may raise propagates uncaught through the jwt-specific except
clauses, and its possible KeyError likewise escapes the function. -/

structure TokenModel where
  kid : Option String
  payload : JwtPayload
  sigOk : Bool
deriving DecidableEq

structure VerifiedToken where
  user : JwtPayload
  token : TokenModel
deriving DecidableEq

inductive VerifyTokenFailure where
  | httpException (statusCode : Nat) (detail : String)
  | uncaughtError
deriving DecidableEq

/-- Model of verify_token: missing token yields 401 Not authenticated; the
JWKS fetch result is consulted; a falsy kid or an unmatched kid raise
InvalidTokenError, caught and rendered as 401 with an Invalid token prefix;
jwt.decode runs with audience authenticated and no leeway; on success the
decoded payload is returned with no check on its sub claim. -/
def verify_token (cache : JwksCache) (fetch : FetchOutcome) (token : Option TokenModel)
    (now : Int) : Except VerifyTokenFailure VerifiedToken :=
  match token with
  | none => .error (.httpException 401 "Not authenticated")
  | some t =>
    match (get_jwks cache now fetch).result with
    | .error (.http s d) => .error (.httpException s d)
    | .error .pyKeyError => .error .uncaughtError
    | .ok jwks =>
      let kidStr := t.kid.getD ""
      if !(pyTruthyOptStr t.kid) then
        .error (.httpException 401 ("Invalid token: " ++ jwtErrorMessage .missingKid))
      else
        match jwks.find? (fun key => key.kid == kidStr) with
        | none =>
          .error (.httpException 401 ("Invalid token: " ++ jwtErrorMessage .signingKeyNotFound))
        | some _ =>
          match jwt_decode t.sigOk t.payload "authenticated" now 0 with
          | .error .expiredSignature => .error (.httpException 401 "Token has expired")
          | .error e => .error (.httpException 401 ("Invalid token: " ++ jwtErrorMessage e))
          | .ok p => .ok ⟨p, t⟩

/-! ## Stripe webhook signature verification

Model of stripe.WebhookSignature.verify_header and stripe.Webhook.construct_event
from the stripe Python library, exactly as the endpoint calls them: the header
is split on commas, each item on equals signs with the first two chunks
retained, the first t item parsed as an integer timestamp, all v1 items
collected as candidate signatures; the expected signature is HMAC-SHA256 of
timestamp dot payload under the endpoint secret, compared in constant time
against every candidate; construct_event passes its default tolerance of 300
seconds, and a timestamp older than now minus tolerance is rejected after the
signature comparison. -/

/-- Splitting accumulator: split a character list at every occurrence of the
separator, keeping empty chunks, as Python str.split does for a one-character
separator. -/
def splitCharAux (sep : Char) : List Char → List Char → List (List Char)
  | [], acc => [acc.reverse]
  | c :: cs, acc =>
    if c = sep then acc.reverse :: splitCharAux sep cs []
    else splitCharAux sep cs (c :: acc)

/-- Python str.split(sep) for a one-character separator, the only form the
webhook code uses (commas and equals signs). -/
def splitChar (sep : Char) (s : String) : List String :=
  (splitCharAux sep s.data []).map String.mk

/-- Items of the signature header: each comma-separated part split on equals
signs, mirroring i.split on the part with maxsplit 2, of which only the chunks
at index 0 and 1 are ever read. -/
def headerItems (header : String) : List (List String) :=
  (splitChar ',' header).map (fun p => splitChar '=' p)

/-- The Python list comprehension selecting i at index 1 from every item whose
index 0 chunk equals the tag; none when a selected item has no index 1 chunk
(IndexError inside the comprehension). -/
def extractTagged (items : List (List String)) (tag : String) : Option (List String) :=
  items.foldr (fun i acc =>
    match acc with
    | none => none
    | some rest =>
      if i.headD "" == tag then
        match i.get? 1 with
        | some v => some (v :: rest)
        | none => none
      else some rest) (some [])

/-- Model of WebhookSignature._get_timestamp_and_signatures together with the
enclosing try of verify_header: any IndexError or int() ValueError yields the
unable-to-extract failure, here none. -/
def get_timestamp_and_signatures (header : String) : Option (Int × List String) :=
  let items := headerItems header
  match extractTagged items "t" with
  | none => none
  | some tvals =>
    match tvals.head? with
    | none => none
    | some t0 =>
      match pyInt? t0 with
      | none => none
      | some ts =>
        match extractTagged items "v1" with
        | none => none
        | some sigs => some (ts, sigs)

/-- Model of stripe util.secure_compare: constant-time equality of the two
strings; its value is their equality. -/
def secure_compare (a b : String) : Bool := a == b

inductive SigVerifyOutcome where
  | passed
  | unableToExtract
  | noSignatures
  | noMatch
  | outsideTolerance
deriving DecidableEq

/-- Model of stripe.WebhookSignature.verify_header(payload, header, secret,
tolerance) with now the value of time.time(): extract timestamp and candidate
signatures, require at least one candidate, compare HMAC-SHA256 of
timestamp dot payload against every candidate via secure_compare, then, when a
truthy tolerance is given, reject a timestamp older than now minus tolerance. -/
def verify_header (payload header secret : String) (tolerance : Option Int) (now : Int) :
    SigVerifyOutcome :=
  match get_timestamp_and_signatures header with
  | none => .unableToExtract
  | some (timestamp, signatures) =>
    if signatures.isEmpty then .noSignatures
    else
      let signed_payload := toString timestamp ++ "." ++ payload
      let expected_sig := hmacSha256HexS secret signed_payload
      if !(signatures.any (fun s => secure_compare expected_sig s)) then .noMatch
      else if pyTruthyOptInt tolerance && decide (timestamp < now - tolerance.getD 0) then
        .outsideTolerance
      else .passed

/-! ## The stripe_webhook endpoint (app/api/endpoints/webnooks.py lines 18-170) -/

/-- A Stripe event as far as the endpoint reads it after construct_event. -/
structure StripeEvent where
  type : String
deriving DecidableEq

inductive WebhookHttp where
  | success (message : String)
  | httpError (statusCode : Nat) (detail : String)
deriving DecidableEq

/-- Observable outcome of one webhook request: the HTTP response, whether any
HMAC signature computation was reached, and whether any event handler was
dispatched. -/
structure WebhookOutput where
  response : WebhookHttp
  computedSignature : Bool
  dispatched : Bool
deriving DecidableEq

/-- Model of the manual signature-verification try block, lines 47 to 97: the
header parts are scanned with startswith, the last t part wins, v1 parts are
collected; a truthy non-integer timestamp makes int() raise inside the block;
otherwise signature_match is computed from HMAC-SHA256 over the raw timestamp
string (None rendered literally by the f-string) dot payload. The block result
is only ever logged. -/
def manual_signature_block (secret payload header : String) : Except String Bool :=
  let parts := splitChar ',' header
  let timestamp :=
    (parts.filterMap (fun p => if p.startsWith "t=" then some (p.drop 2) else none)).getLast?
  let signatures := parts.filterMap (fun p => if p.startsWith "v1=" then some (p.drop 3) else none)
  let tsCheck : Except String Unit :=
    match timestamp with
    | some tstr =>
      if pyTruthyStr tstr then
        match pyInt? tstr with
        | some _ => .ok ()
        | none => .error "invalid literal for int with base 10"
      else .ok ()
    | none => .ok ()
  match tsCheck with
  | .error e => .error e
  | .ok _ =>
    let tsText := match timestamp with | none => "None" | some s => s
    let signed_payload := tsText ++ "." ++ payload
    let expected_signature := hmacSha256HexS secret signed_payload
    .ok (signatures.any (fun s => secure_compare expected_signature s))

/-- Model of the endpoint with the outcome of the manual verification block
held abstract: the block runs inside its own try whose except clause only
logs, and its computed value is never read afterwards, so it enters the model
as an unused argument. parseEvent stands for json.loads plus
Event.construct_from inside construct_event (none where json.loads raises
ValueError), and dispatch for the stripe_service handler calls, whose raised
exceptions the trailing except clause turns into a generic 500. -/
def stripe_webhook_model (manual : Except String Bool)
    (parseEvent : String → Option StripeEvent) (dispatch : StripeEvent → Except String Unit)
    (secret payload : String) (stripe_signature : Option String) (now : Int) : WebhookOutput :=
  if !(pyTruthyOptStr stripe_signature) then
    ⟨.httpError 400 "Missing Stripe signature", false, false⟩
  else if !(pyTruthyStr secret) then
    ⟨.httpError 500 "Webhook secret not configured", false, false⟩
  else
    match verify_header payload (stripe_signature.getD "") secret (some 300) now with
    | .unableToExtract => ⟨.httpError 400 "Invalid signature", true, false⟩
    | .noSignatures => ⟨.httpError 400 "Invalid signature", true, false⟩
    | .noMatch => ⟨.httpError 400 "Invalid signature", true, false⟩
    | .outsideTolerance => ⟨.httpError 400 "Invalid signature", true, false⟩
    | .passed =>
      match parseEvent payload with
      | none => ⟨.httpError 400 "Invalid payload", true, false⟩
      | some event =>
        match dispatch event with
        | .error _ => ⟨.httpError 500 "Webhook processing failed", true, true⟩
        | .ok _ =>
          ⟨.success ("Webhook " ++ event.type ++ " processed successfully"), true, true⟩

/-- The endpoint itself: the manual block outcome is the one actually computed
from the request. -/
def stripe_webhook (parseEvent : String → Option StripeEvent)
    (dispatch : StripeEvent → Except String Unit) (secret payload : String)
    (stripe_signature : Option String) (now : Int) : WebhookOutput :=
  stripe_webhook_model (manual_signature_block secret payload (stripe_signature.getD ""))
    parseEvent dispatch secret payload stripe_signature now

/-! ## Claims about the key-set cache -/

theorem hexDigit_isLowerHex (n : Nat) (h : n < 16) : isLowerHexChar (hexDigit n) = true := by
  interval_cases n <;> decide

theorem bytesToHexChars_lowerHex (bs : List Nat) :
    (bytesToHexChars bs).all isLowerHexChar = true := by
  induction bs with
  | nil => rfl
  | cons b bs ih =>
    simp only [bytesToHexChars, List.all_cons, Bool.and_eq_true]
    exact ⟨hexDigit_isLowerHex _ (Nat.mod_lt _ (by norm_num)),
           hexDigit_isLowerHex _ (Nat.mod_lt _ (by norm_num)), ih⟩

theorem bytesToHex_lowerHex (bs : List Nat) : isLowerHexString (bytesToHex bs) = true :=
  bytesToHexChars_lowerHex bs

/-- C4 (amended): whenever get_jwks attempts a remote fetch (empty or expired
cache) and the fetch fails with a requests exception - covering network
errors, non-success responses and invalid JSON bodies - the call raises
HTTPException 503, leaves the cache untouched, and in particular neither
returns a previously cached now-expired key set nor stores the failed result.
A syntactically valid JSON body without a keys field is the one fetch failure
escaping this: it raises an uncaught KeyError instead (see the
counterexample). -/
theorem C4_fetch_failure_returns_503 (cache : JwksCache) (now : Int) (msg : String)
    (hdue : cache.keys.isEmpty = true ∨ now - cache.last_fetched > CACHE_LIFETIME_SECONDS) :
    get_jwks cache now (.reqException msg) =
      ⟨.error (.http 503 ("Could not fetch JWKS: " ++ msg)), cache, 1⟩ := by
  have hc : (cache.keys.isEmpty
      || decide (now - cache.last_fetched > CACHE_LIFETIME_SECONDS)) = true := by
    rcases hdue with h | h
    · simp [h]
    · simp [h]
  simp [get_jwks, hc]

/-- C4 witness: an expired non-empty cache plus a failing fetch yields exactly
the 503 error with the cache unchanged. -/
theorem C4_witness :
    get_jwks ⟨[⟨"k1"⟩], 0⟩ 4000 (.reqException "timeout") =
      ⟨.error (.http 503 "Could not fetch JWKS: timeout"), ⟨[⟨"k1"⟩], 0⟩, 1⟩ :=
  C4_fetch_failure_returns_503 ⟨[⟨"k1"⟩], 0⟩ 4000 "timeout" (Or.inr (by decide))

/-- C4 counterexample: with an empty cache and a fetched body that is valid
JSON but has no keys field, get_jwks terminates with an uncaught KeyError, not
with an HTTPException 503, refuting the claim that every malformed-body fetch
failure yields ServiceUnavailable. -/
theorem C4_counterexample :
    isHttp503 (get_jwks ⟨[], 0⟩ 10 .jsonWithoutKeys).result = false
    ∧ (get_jwks ⟨[], 0⟩ 10 .jsonWithoutKeys).result = .error .pyKeyError := by
  exact ⟨rfl, rfl⟩

/-- C5 (amended): after a successful fetch installed a non-empty key set, every
call within the lifetime window returns exactly the cached keys, leaves the
cache alone and performs no remote fetch (the fetch outcome argument is
arbitrary and unused); a call after the window performs exactly one refresh
attempt; and a successful fetch installs the fetched keys with the fetch time.
When the successfully fetched key set was empty, the within-window cache hit
fails (see the counterexample). -/
theorem C5_cache_hit_within_lifetime (ks : List JWK) (t1 t2 : Int) (f2 : FetchOutcome)
    (hne : ks ≠ []) :
    (t2 - t1 ≤ CACHE_LIFETIME_SECONDS → get_jwks ⟨ks, t1⟩ t2 f2 = ⟨.ok ks, ⟨ks, t1⟩, 0⟩)
    ∧ (t2 - t1 > CACHE_LIFETIME_SECONDS → (get_jwks ⟨ks, t1⟩ t2 f2).fetchCount = 1)
    ∧ (∀ c0 t0 ks2, (get_jwks c0 t0 (.ok ks2)).fetchCount = 1 →
        (get_jwks c0 t0 (.ok ks2)).cache = ⟨ks2, t0⟩
        ∧ (get_jwks c0 t0 (.ok ks2)).result = .ok ks2) := by
  refine ⟨?_, ?_, ?_⟩
  · intro hle
    have hke : ks.isEmpty = false := by
      cases ks with
      | nil => exact absurd rfl hne
      | cons a l => rfl
    have hd : decide (t2 - t1 > CACHE_LIFETIME_SECONDS) = false := by
      simp only [decide_eq_false_iff_not]
      omega
    simp [get_jwks, hke, hd]
  · intro hgt
    have hc : (List.isEmpty ks || decide (t2 - t1 > CACHE_LIFETIME_SECONDS)) = true := by
      simp [hgt]
    cases f2 <;> simp [get_jwks, hc]
  · intro c0 t0 ks2 hcount
    by_cases hc : (List.isEmpty c0.keys
        || decide (t0 - c0.last_fetched > CACHE_LIFETIME_SECONDS)) = true
    · constructor
      · simp [get_jwks, hc]
      · simp [get_jwks, hc]
    · rw [Bool.not_eq_true] at hc
      exact absurd hcount (by simp [get_jwks, hc])

/-- C5 witness: a fresh non-empty cache serves a within-window call with no
fetch even when the remote is down, and an expired cache triggers exactly one
refresh attempt. -/
theorem C5_witness :
    get_jwks ⟨[⟨"k1"⟩], 0⟩ 100 (.reqException "down") = ⟨.ok [⟨"k1"⟩], ⟨[⟨"k1"⟩], 0⟩, 0⟩
    ∧ (get_jwks ⟨[⟨"k1"⟩], 0⟩ 5000 (.ok [⟨"k2"⟩])).fetchCount = 1 :=
  ⟨(C5_cache_hit_within_lifetime [⟨"k1"⟩] 0 100 (.reqException "down") (by decide)).1 (by decide),
   (C5_cache_hit_within_lifetime [⟨"k1"⟩] 0 5000 (.ok [⟨"k2"⟩]) (by decide)).2.1 (by decide)⟩

/-- C5 counterexample: a successful remote fetch whose keys array was empty
installs the empty set, and the very next call, well inside the lifetime
window, performs a remote fetch again, refuting the claim that every call
within the window after a successful fetch is served from the cache without a
remote fetch. -/
theorem C5_counterexample :
    (get_jwks ⟨[], 0⟩ 100 (.ok [])).cache = ⟨[], 100⟩
    ∧ (get_jwks ⟨[], 100⟩ 101 (.ok [])).fetchCount = 1 :=
  ⟨rfl, rfl⟩

/-! ## Claims about token verification -/

theorem jwt_decode_ok_eq {sigOk : Bool} {payload p : JwtPayload} {a : String} {now leeway : Int}
    (h : jwt_decode sigOk payload a now leeway = .ok p) : p = payload := by
  unfold jwt_decode at h
  split at h
  · exact Except.noConfusion h
  · split at h
    · exact Except.noConfusion h
    · split at h
      · exact Except.noConfusion h
      · split at h
        · exact (Except.ok.inj h).symm
        · exact Except.noConfusion h

/-- Shared invariant of get_current_user: a returned user-info value always
carries a truthy user_id. -/
theorem get_current_user_ok_truthy (sigOk : Bool) (payload : JwtPayload) (now : Int) :
    ∀ u, get_current_user sigOk payload now = .ok (some u) →
      pyTruthyOptStr u.user_id = true := by
  intro u hu
  unfold get_current_user at hu
  simp only [show pyValEq requestClassMethod (.str "OPTIONS") = false from rfl,
    Bool.false_eq_true, if_false] at hu
  cases hdec : jwt_decode sigOk payload "authenticated" now 10 with
  | error e => rw [hdec] at hu; cases e <;> simp at hu
  | ok p =>
    rw [hdec] at hu
    by_cases hs : pyTruthyOptStr p.sub = true
    · simp only [hs, if_true] at hu
      cases Option.some.inj (Except.ok.inj hu)
      exact hs
    · rw [Bool.not_eq_true] at hs
      simp [hs] at hu

/-- C1 (amended): in get_current_user, the verification dependency used by
every protected route, a token whose sub claim is missing or empty can only
end in a raised 401 failure, never in a returned user-info value, and every
returned user-info value carries a truthy (present and non-empty) user_id.
The unused helper verify_token in app/core/security.py, by contrast, performs
no such check (see the counterexample). -/
theorem C1_empty_subject_rejected (sigOk : Bool) (payload : JwtPayload) (now : Int) :
    (pyTruthyOptStr payload.sub = false → failsWith401 (get_current_user sigOk payload now) = true)
    ∧ (∀ u, get_current_user sigOk payload now = .ok (some u) →
        pyTruthyOptStr u.user_id = true) := by
  refine ⟨?_, get_current_user_ok_truthy sigOk payload now⟩
  intro hsub
  unfold get_current_user
  simp only [show pyValEq requestClassMethod (.str "OPTIONS") = false from rfl,
    Bool.false_eq_true, if_false]
  cases hdec : jwt_decode sigOk payload "authenticated" now 10 with
  | error e => cases e <;> simp [failsWith401, authFailureStatus]
  | ok p =>
    have hp : p = payload := jwt_decode_ok_eq hdec
    subst hp
    simp [hsub, failsWith401, authFailureStatus]

/-- C1 witness: a correctly signed token with an empty sub and valid audience
makes get_current_user fail with a 401 condition, and a token with sub u1
yields a user info whose user_id is truthy. -/
theorem C1_witness :
    failsWith401 (get_current_user true
      ⟨some "", some "a@b.com", none, some "authenticated", some 2000⟩ 1000) = true
    ∧ pyTruthyOptStr (some "u1") = true :=
  ⟨(C1_empty_subject_rejected true
      ⟨some "", some "a@b.com", none, some "authenticated", some 2000⟩ 1000).1 (by decide),
   (C1_empty_subject_rejected true
      ⟨some "u1", none, none, some "authenticated", some 2000⟩ 1000).2
      ⟨some "u1", none, "authenticated"⟩ (by decide)⟩

/-- C1 counterexample: verify_token, the other verification path, succeeds on a
correctly signed token whose sub claim is the empty string and hands back the
decoded claims with the empty subject, refuting the claim that every
verification path rejects such tokens. -/
theorem C1_counterexample :
    verify_token ⟨[⟨"k1"⟩], 1000⟩ (.reqException "down")
      (some ⟨some "k1", ⟨some "", some "a@b.com", none, some "authenticated", some 2000⟩, true⟩)
      1000 =
      .ok ⟨⟨some "", some "a@b.com", none, some "authenticated", some 2000⟩,
           ⟨some "k1", ⟨some "", some "a@b.com", none, some "authenticated", some 2000⟩, true⟩⟩ := by
  decide

/-- C2: get_current_user validates the expiration claim through jwt.decode with
a leeway of exactly 10 seconds: with a correctly signed token, a matching
audience and a truthy subject, a token expired by at least leeway + 1 seconds
fails with the dedicated Token has expired condition (HTTP 401), and a token
expired by strictly less than leeway seconds verifies successfully. -/
theorem C2_expiration_leeway (payload : JwtPayload) (now exp : Int)
    (hexp : payload.exp = some exp) (haud : payload.aud = some "authenticated")
    (hsub : pyTruthyOptStr payload.sub = true) :
    (now - exp ≥ 11 →
      get_current_user true payload now = .error (.httpException 401 "Token has expired"))
    ∧ (now - exp < 10 →
      get_current_user true payload now =
        .ok (some ⟨payload.sub, payload.email, payload.role.getD "authenticated"⟩)) := by
  constructor
  · intro hlate
    have hx : jwtExpired payload now 10 = true := by
      unfold jwtExpired
      rw [hexp]
      exact decide_eq_true (by omega)
    have hdec : jwt_decode true payload "authenticated" now 10 = .error .expiredSignature := by
      unfold jwt_decode
      simp [hx]
    unfold get_current_user
    simp [show pyValEq requestClassMethod (.str "OPTIONS") = false from rfl, hdec]
  · intro hfresh
    have hx : jwtExpired payload now 10 = false := by
      unfold jwtExpired
      rw [hexp]
      exact decide_eq_false (by omega)
    have hdec : jwt_decode true payload "authenticated" now 10 = .ok payload := by
      unfold jwt_decode
      simp [hx, haud]
    unfold get_current_user
    simp [show pyValEq requestClassMethod (.str "OPTIONS") = false from rfl, hdec, hsub]

/-- C2 witness: with expiry 100, a call at time 111 (expired by 11) fails with
Token has expired, and a call at time 109 (expired by 9) succeeds. -/
theorem C2_witness :
    get_current_user true ⟨some "u", none, none, some "authenticated", some 100⟩ 111 =
      .error (.httpException 401 "Token has expired")
    ∧ get_current_user true ⟨some "u", none, none, some "authenticated", some 100⟩ 109 =
      .ok (some ⟨some "u", none, "authenticated"⟩) :=
  ⟨(C2_expiration_leeway ⟨some "u", none, none, some "authenticated", some 100⟩ 111 100
      rfl rfl (by decide)).1 (by decide),
   (C2_expiration_leeway ⟨some "u", none, none, some "authenticated", some 100⟩ 109 100
      rfl rfl (by decide)).2 (by decide)⟩

/-- C7: when the JWKS fetch succeeds and no key in the current key set carries
the kid named by the token header, verify_token fails with 401 and the Signing
key not found detail, whatever the key set is and whether or not the token
signature would verify. -/
theorem C7_unknown_kid_rejected (cache : JwksCache) (fetch : FetchOutcome) (t : TokenModel)
    (now : Int) (jwks : List JWK) (k : String)
    (hfetch : (get_jwks cache now fetch).result = .ok jwks)
    (hkid : t.kid = some k) (hk : pyTruthyStr k = true)
    (hnone : jwks.all (fun key => !(key.kid == k)) = true) :
    verify_token cache fetch (some t) now =
      .error (.httpException 401 "Invalid token: Signing key not found in JWKS") := by
  have hfind : jwks.find? (fun key => key.kid == k) = none := by
    rw [List.find?_eq_none]
    intro x hx
    have := (List.all_eq_true.mp hnone) x hx
    simpa using this
  unfold verify_token
  simp only [hfetch, hkid, Option.getD_some, pyTruthyOptStr, hk, Bool.not_true,
    Bool.false_eq_true, if_false, hfind]
  rfl

/-- C7 witness: a fresh key set containing only kid k1 rejects a token naming
kid k2 with the Signing key not found condition even though its signature
would verify. -/
theorem C7_witness :
    verify_token ⟨[⟨"k1"⟩], 1000⟩ (.reqException "down")
      (some ⟨some "k2", ⟨some "u", none, none, some "authenticated", none⟩, true⟩) 1000 =
      .error (.httpException 401 "Invalid token: Signing key not found in JWKS") :=
  C7_unknown_kid_rejected ⟨[⟨"k1"⟩], 1000⟩ (.reqException "down")
    ⟨some "k2", ⟨some "u", none, none, some "authenticated", none⟩, true⟩ 1000
    [⟨"k1"⟩] "k2" (by decide) rfl (by decide) (by decide)

/-- C10: get_current_user never returns None: the OPTIONS early-return guard
compares the property descriptor Request.method of the class with the string
OPTIONS and is therefore false on every call, and every returned user-info
value carries a truthy user_id; all other outcomes are raised failures. -/
theorem C10_never_returns_none (sigOk : Bool) (payload : JwtPayload) (now : Int) :
    pyValEq requestClassMethod (.str "OPTIONS") = false
    ∧ get_current_user sigOk payload now ≠ .ok none
    ∧ (∀ u, get_current_user sigOk payload now = .ok (some u) →
        pyTruthyOptStr u.user_id = true) := by
  refine ⟨rfl, ?_, get_current_user_ok_truthy sigOk payload now⟩
  intro hnone
  unfold get_current_user at hnone
  simp only [show pyValEq requestClassMethod (.str "OPTIONS") = false from rfl,
    Bool.false_eq_true, if_false] at hnone
  cases hdec : jwt_decode sigOk payload "authenticated" now 10 with
  | error e => rw [hdec] at hnone; cases e <;> simp at hnone
  | ok p =>
    rw [hdec] at hnone
    by_cases hs : pyTruthyOptStr p.sub = true
    · simp [hs] at hnone
    · rw [Bool.not_eq_true] at hs
      simp [hs] at hnone

/-- C10 witness: a valid token yields a user-info value, never None, and its
user_id is truthy. -/
theorem C10_witness :
    get_current_user true ⟨some "u1", none, none, some "authenticated", some 100⟩ 0 ≠ .ok none
    ∧ pyTruthyOptStr (some "u1") = true :=
  ⟨(C10_never_returns_none true ⟨some "u1", none, none, some "authenticated", some 100⟩ 0).2.1,
   (C10_never_returns_none true ⟨some "u1", none, none, some "authenticated", some 100⟩ 0).2.2
     ⟨some "u1", none, "authenticated"⟩ (by decide)⟩

/-! ## Claims about the webhook endpoint -/

/-- C8: a webhook request with an absent or empty stripe-signature header is
answered with HTTPException 400 Missing Stripe signature - not a generic 500 -
and neither a signature computation nor an event dispatch is reached. -/
theorem C8_missing_signature_400 (parseEvent : String → Option StripeEvent)
    (dispatch : StripeEvent → Except String Unit) (secret payload : String) (now : Int) :
    stripe_webhook parseEvent dispatch secret payload none now =
      ⟨.httpError 400 "Missing Stripe signature", false, false⟩
    ∧ stripe_webhook parseEvent dispatch secret payload (some "") now =
      ⟨.httpError 400 "Missing Stripe signature", false, false⟩ :=
  ⟨rfl, rfl⟩

/-- C9: the HTTP response of the webhook endpoint is independent of the manual
inline verification block: replacing its outcome (the signature_match value,
or any exception it swallowed) by an arbitrary one changes nothing about the
produced output, so acceptance is decided solely by the construct_event path
modelled in stripe_webhook_model. -/
theorem C9_manual_block_never_read (manual : Except String Bool)
    (parseEvent : String → Option StripeEvent) (dispatch : StripeEvent → Except String Unit)
    (secret payload : String) (sig : Option String) (now : Int) :
    stripe_webhook parseEvent dispatch secret payload sig now =
      stripe_webhook_model manual parseEvent dispatch secret payload sig now := rfl

/-- C3: any webhook request whose signature header parses to a timestamp more
than 300 seconds in the past is rejected with HTTPException 400 Invalid
signature, whether or not any candidate signature matches the payload HMAC. -/
theorem C3_stale_timestamp_rejected (parseEvent : String → Option StripeEvent)
    (dispatch : StripeEvent → Except String Unit) (secret payload h : String) (now t : Int)
    (sigs : List String)
    (hh : pyTruthyStr h = true) (hs : pyTruthyStr secret = true)
    (hp : get_timestamp_and_signatures h = some (t, sigs))
    (hold : t < now - 300) :
    (stripe_webhook parseEvent dispatch secret payload (some h) now).response =
      .httpError 400 "Invalid signature" := by
  unfold stripe_webhook stripe_webhook_model
  simp only [pyTruthyOptStr, hh, hs, Bool.not_true, Bool.false_eq_true, if_false,
    Option.getD_some]
  unfold verify_header
  rw [hp]
  by_cases he : sigs.isEmpty = true
  · simp [he]
  · rw [Bool.not_eq_true] at he
    by_cases hm : sigs.any (fun s =>
        secure_compare (hmacSha256HexS secret (toString t ++ "." ++ payload)) s) = true
    · simp [he, hm, pyTruthyOptInt, decide_eq_true hold]
    · rw [Bool.not_eq_true] at hm
      simp [he, hm]

/-- C3 witness: a header stamped 100 arriving at time 1000 is rejected with
400 Invalid signature. -/
theorem C3_witness :
    (stripe_webhook (fun _ => none) (fun _ => .ok ()) "whsec" "p"
      (some "t=100,v1=abc") 1000).response = .httpError 400 "Invalid signature" :=
  C3_stale_timestamp_rejected (fun _ => none) (fun _ => .ok ()) "whsec" "p"
    "t=100,v1=abc" 1000 100 ["abc"] (by decide) (by decide) (by decide) (by decide)

/-- C6: for a header parsing to timestamp t and candidate list sigs, the
signature the verifier computes is HMAC-SHA256 of t dot payload under the
shared secret, rendered as a lowercase hex string; with a fresh timestamp,
verification passes exactly when some candidate equals it under the
constant-time comparison; and a payload whose computed signature matches no
candidate - in particular one altered in a single byte - fails with the
signature-mismatch outcome regardless of the timestamp. -/
theorem C6_hmac_any_candidate (payload altered secret header : String) (t : Int)
    (sigs : List String) (now : Int)
    (hp : get_timestamp_and_signatures header = some (t, sigs)) :
    isLowerHexString (hmacSha256HexS secret (toString t ++ "." ++ payload)) = true
    ∧ (now - 300 ≤ t →
        (verify_header payload header secret (some 300) now = .passed ↔
          sigs.any (fun s =>
            secure_compare (hmacSha256HexS secret (toString t ++ "." ++ payload)) s) = true))
    ∧ (sigs ≠ [] →
        sigs.any (fun s =>
          secure_compare (hmacSha256HexS secret (toString t ++ "." ++ altered)) s) = false →
        verify_header altered header secret (some 300) now = .noMatch) := by
  refine ⟨bytesToHex_lowerHex _, ?_, ?_⟩
  · intro hfresh
    unfold verify_header
    rw [hp]
    by_cases he : sigs.isEmpty = true
    · have hnil : sigs = [] := List.isEmpty_iff.mp he
      subst hnil
      simp
    · rw [Bool.not_eq_true] at he
      by_cases hm : sigs.any (fun s =>
          secure_compare (hmacSha256HexS secret (toString t ++ "." ++ payload)) s) = true
      · have hd : decide (t < now - 300) = false := decide_eq_false (by omega)
        simp [he, hm, pyTruthyOptInt, hd]
      · rw [Bool.not_eq_true] at hm
        simp [he, hm]
  · intro hne hm
    unfold verify_header
    rw [hp]
    have he : sigs.isEmpty = false := by
      cases sigs with
      | nil => exact absurd rfl hne
      | cons a l => rfl
    simp [he, hm]

/-- C6 witness: for secret whsec_x, payload ab and timestamp 1000, the header
carrying exactly the computed digest passes verification, and altering the
single final byte of the payload to give ac makes verification fail with the
signature-mismatch outcome. -/
theorem C6_witness :
    isLowerHexString (hmacSha256HexS "whsec_x" "1000.ab") = true
    ∧ verify_header "ab"
        "t=1000,v1=ee99f17a6767f002a578ffffeb3320e27b0310538d74bdec0dfd92f32f86eb19"
        "whsec_x" (some 300) 1000 = .passed
    ∧ verify_header "ac"
        "t=1000,v1=ee99f17a6767f002a578ffffeb3320e27b0310538d74bdec0dfd92f32f86eb19"
        "whsec_x" (some 300) 1000 = .noMatch :=
  ⟨(C6_hmac_any_candidate "ab" "ac" "whsec_x"
      "t=1000,v1=ee99f17a6767f002a578ffffeb3320e27b0310538d74bdec0dfd92f32f86eb19"
      1000 ["ee99f17a6767f002a578ffffeb3320e27b0310538d74bdec0dfd92f32f86eb19"] 1000
      (by decide)).1,
   ((C6_hmac_any_candidate "ab" "ac" "whsec_x"
      "t=1000,v1=ee99f17a6767f002a578ffffeb3320e27b0310538d74bdec0dfd92f32f86eb19"
      1000 ["ee99f17a6767f002a578ffffeb3320e27b0310538d74bdec0dfd92f32f86eb19"] 1000
      (by decide)).2.1 (by decide)).mpr (by decide),
   (C6_hmac_any_candidate "ab" "ac" "whsec_x"
      "t=1000,v1=ee99f17a6767f002a578ffffeb3320e27b0310538d74bdec0dfd92f32f86eb19"
      1000 ["ee99f17a6767f002a578ffffeb3320e27b0310538d74bdec0dfd92f32f86eb19"] 1000
      (by decide)).2.2 (by decide) (by decide)⟩

end Describo
